import Mathlib

/-!
Verification of the calculation and intent-resolution core of the
financial-forecast application (`src/app.py`).

The embedding below translates the Python source into Lean:
* numbers that Python handles exactly (ints) become `Nat`/`Int`; the
  model arithmetic is carried out over `ℚ`;
* the ratio metrics divide `numpy.float64` values (the revenue comes
  from `model.predict`), and numpy division by zero does not raise: it
  emits a RuntimeWarning and returns inf, -inf or nan.  Results of
  these divisions therefore live in `NumVal`, finite values carried
  exactly (the source's float rounding of finite quotients is not
  modelled; no theorem below depends on a finite quotient's value)
  together with the three special values;
* Python strings become `List Char` (with `String.mk` at the display
  boundary).  `str.split()` uses the complete Unicode whitespace set.
  `str.isdigit()` and `int(...)` are embedded on a documented Unicode
  fragment that keeps their crucial disagreement: `isdigit` accepts
  digit-classified characters such as the superscripts on which `int`
  raises `ValueError`, while `int` parses decimal digits of any
  script.  `str.lower()` maps exactly the characters whose lowercase
  form contains ASCII letters (the ASCII uppercase letters, dotted
  capital I, the Kelvin sign); every other character's lowercase form
  contains no ASCII letter and no whitespace or digit change, so
  keyword containment and number extraction agree with the source;
* `try: val = int(val) except: ...` in `format_currency` is embedded by
  an `Option Int`-valued coercion over a small value universe `PyValue`.
-/

/-- Errors that the embedded Python operations can raise. -/
inductive PyError where
  | valueError
deriving DecidableEq

/-- The value universe of the `numpy.float64` arithmetic in the ratio
metrics: a finite value (carried exactly), or one of the special
values that numpy division by zero returns instead of raising. -/
inductive NumVal where
  | fin : ℚ → NumVal
  | inf : NumVal
  | ninf : NumVal
  | nan : NumVal

/-- Embedding of `/` on `numpy.float64` operands: a zero divisor does
not raise; numpy emits a RuntimeWarning and the expression evaluates
to inf, -inf or nan (for a positive, negative or zero dividend), which
is the value handed to the caller.  A nonzero divisor gives the
quotient (carried exactly here). -/
def npdiv (a b : ℚ) : NumVal :=
  if b = 0 then
    if 0 < a then NumVal.inf else if a < 0 then NumVal.ninf else NumVal.nan
  else NumVal.fin (a / b)

/-- The character for one decimal digit (`str` of a digit value). -/
def digitChar (d : Nat) : Char :=
  match d with
  | 0 => '0'
  | 1 => '1'
  | 2 => '2'
  | 3 => '3'
  | 4 => '4'
  | 5 => '5'
  | 6 => '6'
  | 7 => '7'
  | 8 => '8'
  | _ => '9'

/-- Numeric value of a digit character. -/
def digitVal (c : Char) : Nat := c.toNat - 48

/-- One step of decimal parsing (most-significant digit first). -/
def parseStep (a : Nat) (c : Char) : Nat := 10 * a + digitVal c

/-- Parse a list of digit characters as a decimal numeral
(embeds Python `int(s)` on an all-digit string). -/
def parseDigits (cs : List Char) : Nat := cs.foldl parseStep 0

/-- Fuel-driven producer of the decimal digit characters of a natural
number, most significant first (embeds Python `str(n)` for `n ≥ 0`).
The fuel only needs to exceed the number of digits; `natDigits` below
supplies `n + 1`, which always suffices. -/
def natDigitsAux : Nat → Nat → List Char → List Char
  | 0, _, acc => acc
  | fuel + 1, n, acc =>
    if n < 10 then digitChar n :: acc
    else natDigitsAux fuel (n / 10) (digitChar (n % 10) :: acc)

/-- The decimal digit characters of a natural number (Python `str(n)`). -/
def natDigits (n : Nat) : List Char := natDigitsAux (n + 1) n []

/-- Decimal string of an integer, sign included (Python `str(v)`). -/
def pyStr (v : Int) : List Char :=
  if v < 0 then '-' :: natDigits v.natAbs else natDigits v.toNat

/-- Embedding of the `while len(rest) > 2` loop of `format_currency`
(`src/app.py` lines 23-28): repeatedly peel two-character groups off the
right end of `rest`, the final (≤ 2 character) remainder becoming the
leading group.  Fuel-driven so that it evaluates in the kernel; the fuel
`rest.length` used by `peelParts` always suffices because each
iteration shortens `rest` by two. -/
def peelPartsAux : Nat → List Char → List (List Char)
  | 0, _ => []
  | fuel + 1, rest =>
    if rest.length > 2 then
      peelPartsAux fuel (rest.take (rest.length - 2)) ++ [rest.drop (rest.length - 2)]
    else if rest.isEmpty then [] else [rest]

/-- The groups peeled off the pre-last-three part of the numeral,
left to right (`parts` in `src/app.py`). -/
def peelParts (rest : List Char) : List (List Char) := peelPartsAux rest.length rest

/-- Embedding of Python `",".join(parts)`. -/
def joinComma : List (List Char) → List Char
  | [] => []
  | [p] => p
  | p :: ps => p ++ ',' :: joinComma ps

/-- The digit-grouping of `format_currency` (`src/app.py` lines 17-29):
a numeral of at most three characters is left alone; otherwise the last
three characters form the trailing group and the remainder is split
into two-character groups from the right, all joined with `','`. -/
def groupNum (s : List Char) : List Char :=
  if s.length ≤ 3 then s
  else joinComma (peelParts (s.take (s.length - 3))) ++ ',' :: s.drop (s.length - 3)

/-- The number portion of the formatted currency string for an integer. -/
def numPart (v : Int) : List Char := groupNum (pyStr v)

/-- `format_currency` on an amount that is already an integer
(`src/app.py` lines 11-30, successful-coercion path): the rupee sign, a
space, and the grouped numeral. -/
def format_currency (v : Int) : String :=
  String.mk ('₹' :: ' ' :: numPart v)

/-- The universe of values the formatter can receive: an integer, or a
text that `int(...)` may or may not be able to coerce. -/
inductive PyValue where
  | intV : Int → PyValue
  | strV : List Char → PyValue

/-- Python's whitespace test (`str.isspace` per character), the set on
which `str.split()` splits: the ASCII control whitespace and separator
controls, NEL, NBSP, and the Unicode space separators, line separator
and paragraph separator — the complete set. -/
def isSpaceChar (c : Char) : Bool :=
  let n := c.toNat
  (9 ≤ n && n ≤ 13) || n = 32 || (28 ≤ n && n ≤ 31) || n = 0x85 || n = 0xA0 ||
  n = 0x1680 || (0x2000 ≤ n && n ≤ 0x200A) || n = 0x2028 || n = 0x2029 ||
  n = 0x202F || n = 0x205F || n = 0x3000

/-- Strip leading and trailing whitespace (Python `int` ignores it when
coercing a string). -/
def trimWs (cs : List Char) : List Char :=
  ((cs.dropWhile isSpaceChar).reverse.dropWhile isSpaceChar).reverse

/-- A non-empty run of ASCII decimal digits, used in the string branch
of the formatter's `int(...)` coercion.  Python's `int` also accepts
other scripts' decimal digits and embedded underscores, so the model's
coercion failures are a superset of the source's; the formatter claim
verified below concerns only the failure path, which this widens, never
narrows. -/
def allDigits (cs : List Char) : Bool := !cs.isEmpty && cs.all Char.isDigit

/-- Embedding of Python `int(...)` on a string: optional sign followed
by decimal digits (with surrounding whitespace allowed), `none` when
the coercion raises `ValueError`. -/
def parseIntChars (cs : List Char) : Option Int :=
  match trimWs cs with
  | '-' :: ds => if allDigits ds then some (-(parseDigits ds : Int)) else none
  | '+' :: ds => if allDigits ds then some ((parseDigits ds : Int)) else none
  | ds => if allDigits ds then some ((parseDigits ds : Int)) else none

/-- Embedding of the `int(val)` coercion attempted by `format_currency`
(`src/app.py` lines 12-15): `none` exactly when Python raises. -/
def pyIntCoerce : PyValue → Option Int
  | PyValue.intV n => some n
  | PyValue.strV cs => parseIntChars cs

/-- Full `format_currency` (`src/app.py` lines 11-30): coerce the input
to an integer and group it; on coercion failure return the fixed
zero-amount display string. -/
def format_currency_val (v : PyValue) : String :=
  match pyIntCoerce v with
  | some n => format_currency n
  | none => "₹ 0"

/-- The fitted linear model (`src/app.py` lines 40-41): a coefficient
for each of the three features and an intercept.  The coefficient
values come from fitting `RetailChain_Financials.xlsx`, which is not
part of the source tree, so they are kept abstract; `predict` applies
the affine form of `sklearn.linear_model.LinearRegression.predict`. -/
structure FittedModel where
  cMarketing : ℚ
  cStore : ℚ
  cOnline : ℚ
  intercept : ℚ

/-- `forecast_tool` (`src/app.py` lines 46-47): the model's prediction
at the given feature vector. -/
def forecast_tool (M : FittedModel) (marketing store online : ℚ) : ℚ :=
  M.cMarketing * marketing + M.cStore * store + M.cOnline * online + M.intercept

/-- `roi_tool` (`src/app.py` lines 49-50): `(revenue - marketing) /
marketing`.  Every caller passes the `numpy.float64` revenue from
`model.predict`, so a zero `marketing` does not raise: the division
silently evaluates to inf, -inf or nan (numpy only warns). -/
def roi_tool (revenue marketing : ℚ) : NumVal :=
  npdiv (revenue - marketing) marketing

/-- `profit_tool` (`src/app.py` lines 52-53). -/
def profit_tool (revenue store online : ℚ) : ℚ :=
  revenue - store - online

/-- `margin_tool` (`src/app.py` lines 55-56): `(profit / revenue) *
100` on `numpy.float64` operands: a zero `revenue` gives inf, -inf or
nan, which the multiplication by 100 preserves, and no error is
raised. -/
def margin_tool (profit revenue : ℚ) : NumVal :=
  match npdiv profit revenue with
  | NumVal.fin q => NumVal.fin (q * 100)
  | v => v

/-- `scenario_tool` (`src/app.py` lines 58-61): the model evaluated at
the base and at the perturbed marketing spend, both against the fixed
store cost 200000 and online cost 100000. -/
def scenario_tool (M : FittedModel) (base_marketing delta : ℚ) : ℚ × ℚ :=
  (forecast_tool M base_marketing 200000 100000,
   forecast_tool M (base_marketing + delta) 200000 100000)

/-- The uplift reported to the user (`src/app.py` lines 176 and 223):
new revenue minus base revenue of the scenario pair. -/
def uplift (M : FittedModel) (base_marketing delta : ℚ) : ℚ :=
  (scenario_tool M base_marketing delta).2 - (scenario_tool M base_marketing delta).1

/-- Split on whitespace runs, discarding empty pieces
(Python `str.split()` with no argument). -/
def pySplitAux : List Char → List Char → List (List Char)
  | [], acc => if acc.isEmpty then [] else [acc.reverse]
  | c :: cs, acc =>
    if isSpaceChar c then
      if acc.isEmpty then pySplitAux cs []
      else acc.reverse :: pySplitAux cs []
    else pySplitAux cs (c :: acc)

/-- Python `text.split()`. -/
def pySplit (cs : List Char) : List (List Char) := pySplitAux cs []

/-- Unicode decimal digits (category Nd), the characters `int(...)`
accepts inside a numeral: embedded for the ASCII, Arabic-Indic,
extended Arabic-Indic and Devanagari blocks; the remaining Nd blocks
behave exactly like the ones listed. -/
def isDecimalChar (c : Char) : Bool :=
  let n := c.toNat
  (48 ≤ n && n ≤ 57) || (0x660 ≤ n && n ≤ 0x669) || (0x6F0 ≤ n && n ≤ 0x6F9) ||
  (0x966 ≤ n && n ≤ 0x96F)

/-- The decimal value of a decimal digit character of any of the
embedded blocks. -/
def decimalValChar (c : Char) : Nat :=
  let n := c.toNat
  if 48 ≤ n && n ≤ 57 then n - 48
  else if 0x660 ≤ n && n ≤ 0x669 then n - 0x660
  else if 0x6F0 ≤ n && n ≤ 0x6F9 then n - 0x6F0
  else n - 0x966

/-- Characters classified as digits but not decimal: the Latin-1 and
superscript/subscript digit characters ('¹', '²', '³', '⁰'-'⁹',
'₀'-'₉').  `str.isdigit` accepts them while `int(...)` raises
`ValueError` on them — the disagreement that makes the extractor
partial. -/
def isDigitNotDecimal (c : Char) : Bool :=
  let n := c.toNat
  n = 0xB2 || n = 0xB3 || n = 0xB9 || n = 0x2070 || (0x2074 ≤ n && n ≤ 0x2079) ||
  (0x2080 ≤ n && n ≤ 0x2089)

/-- Python's per-character `str.isdigit` class: decimal digits plus the
digit-classified non-decimal characters. -/
def pyIsDigit (c : Char) : Bool := isDecimalChar c || isDigitNotDecimal c

/-- `str.isdigit` on a token: non-empty and all digit-classified. -/
def pyIsDigitStr (t : List Char) : Bool := !t.isEmpty && t.all pyIsDigit

/-- `int(s)` on an all-decimal token: the digits' values read in
decimal, whatever their script. -/
def parseDecimal (cs : List Char) : Nat :=
  cs.foldl (fun a c => 10 * a + decimalValChar c) 0

/-- `extract_number` (`src/app.py` lines 63-65):
`[int(s) for s in text.split() if s.isdigit()]`, then the first element
or `None`.  `int` is applied to every token that passes `isdigit`, so a
digit-classified token containing a non-decimal digit character (such
as '²') raises `ValueError`; otherwise the first token's decimal value
is returned, or `none` when no token qualifies. -/
def extract_number (cs : List Char) : Except PyError (Option Nat) :=
  let toks := (pySplit cs).filter pyIsDigitStr
  if toks.all fun t => t.all isDecimalChar then
    Except.ok ((toks.map parseDecimal).head?)
  else Except.error PyError.valueError

/-- Python truthiness fallback `num if num else dflt` used by the chat
dispatcher: the default replaces both `None` and `0`. -/
def orDefault (num : Option Nat) (dflt : Nat) : Nat :=
  match num with
  | some n => if n = 0 then dflt else n
  | none => dflt

/-- Python `str.lower()` on one character, as a character list because
the dotted capital I lowers to two characters.  The mapping covers
every character whose lowercase form contains an ASCII letter: the
ASCII uppercase letters, 'İ' (U+0130, lowering to 'i' plus combining
dot above) and the Kelvin sign (U+212A, lowering to 'k').  All other
characters are kept: where their Python lowercase form differs it
contains no ASCII letter, and lowering never changes digit or
whitespace characters, so keyword containment and number extraction
agree with the source on every text. -/
def pyLowerChar (c : Char) : List Char :=
  if 'A' ≤ c && c ≤ 'Z' then [Char.ofNat (c.toNat + 32)]
  else if c.toNat = 0x130 then ['i', Char.ofNat 0x307]
  else if c.toNat = 0x212A then ['k']
  else [c]

/-- Python `text.lower()`. -/
def pyLower (cs : List Char) : List Char := (cs.map pyLowerChar).flatten

/-- Does `hay` start with `needle`? -/
def startsWithChars : List Char → List Char → Bool
  | _, [] => true
  | [], _ :: _ => false
  | a :: as, b :: bs => a == b && startsWithChars as bs

/-- Python's `needle in hay` substring test. -/
def containsSub : List Char → List Char → Bool
  | [], needle => needle.isEmpty
  | a :: hay, needle => startsWithChars (a :: hay) needle || containsSub hay needle

/-- The characters of a string literal. -/
def strChars (s : String) : List Char := s.data

/-- The fixed help message of the chat dispatcher
(`src/app.py` lines 226-233). -/
def helpMsg : String :=
  "I can help with:\n- Revenue forecast\n- ROI\n- Profit\n- Marketing scenarios\nTry: \x27Forecast revenue for 250000 marketing\x27"

/-- The outcome of one chat-dispatcher resolution, keeping the numeric
quantities each branch computes (`src/app.py` lines 201-233); the
rendered sentence is presentation over these values. -/
inductive Response where
  | forecastResp (marketing revenue : ℚ)
  | roiResp (marketing revenue : ℚ) (roiVal : NumVal)
  | profitResp (amount : ℚ)
  | scenarioResp (delta baseRev newRev : ℚ)
  | helpResp (msg : String)

/-- The keyword dispatch of tab 4 (`src/app.py` lines 205-233) over the
already-lowercased query and the already-extracted number: the
first-matching keyword branch runs. -/
def dispatch (M : FittedModel) (q : List Char) (num : Option Nat) : Response :=
  if containsSub q (strChars "forecast") then
    let val : ℚ := (orDefault num 200000 : Nat)
    Response.forecastResp val (forecast_tool M val 200000 100000)
  else if containsSub q (strChars "roi") then
    let val : ℚ := (orDefault num 200000 : Nat)
    let revenue := forecast_tool M val 200000 100000
    Response.roiResp val revenue (roi_tool revenue val)
  else if containsSub q (strChars "profit") then
    let revenue := forecast_tool M 200000 200000 100000
    Response.profitResp (profit_tool revenue 200000 100000)
  else if containsSub q (strChars "increase") || containsSub q (strChars "what if") then
    let delta : ℚ := (orDefault num 50000 : Nat)
    Response.scenarioResp delta (scenario_tool M 200000 delta).1 (scenario_tool M 200000 delta).2
  else
    Response.helpResp helpMsg

/-- The full chat handler of tab 4 (`src/app.py` lines 201-233): lower
the query, extract its first embedded number — a step that can raise
`ValueError` and then aborts the handler before any dispatch — and run
the keyword dispatch on the outcome. -/
def resolve_intent (M : FittedModel) (text : List Char) : Except PyError Response :=
  match extract_number (pyLower text) with
  | Except.error e => Except.error e
  | Except.ok num => Except.ok (dispatch M (pyLower text) num)

/-- The intent a response belongs to (§3 of the design: Forecast, ROI,
Profit, Scenario, Unknown). -/
inductive Intent where
  | forecastI
  | roiI
  | profitI
  | scenarioI
  | unknownI
deriving DecidableEq

/-- Classify a response by its branch. -/
def intentOf : Response → Intent
  | Response.forecastResp _ _ => Intent.forecastI
  | Response.roiResp _ _ _ => Intent.roiI
  | Response.profitResp _ => Intent.profitI
  | Response.scenarioResp _ _ _ => Intent.scenarioI
  | Response.helpResp _ => Intent.unknownI

/-- The marketing value a response's computation used, when it has one. -/
def marketingUsed : Response → Option ℚ
  | Response.forecastResp m _ => some m
  | Response.roiResp m _ _ => some m
  | _ => none

/-- The marketing value the handler's outcome used: none when the
handler raised or the branch consumes no marketing value. -/
def marketingUsedE : Except PyError Response → Option ℚ
  | Except.ok r => marketingUsed r
  | Except.error _ => none

/-- The error a handler outcome raised, when it raised one. -/
def raisedE : Except PyError Response → Option PyError
  | Except.error e => some e
  | Except.ok _ => none

/-- Decidable equality for the handler outcomes that carry decidable
payloads, used to evaluate the embedding at concrete queries. -/
instance exceptDecEq {ε α : Type} [DecidableEq ε] [DecidableEq α] :
    DecidableEq (Except ε α) := fun a b =>
  match a, b with
  | Except.ok x, Except.ok y =>
    if h : x = y then Decidable.isTrue (by rw [h])
    else Decidable.isFalse (fun hc => h (Except.ok.inj hc))
  | Except.error x, Except.error y =>
    if h : x = y then Decidable.isTrue (by rw [h])
    else Decidable.isFalse (fun hc => h (Except.error.inj hc))
  | Except.ok _, Except.error _ => Decidable.isFalse (fun hc => Except.noConfusion hc)
  | Except.error _, Except.ok _ => Decidable.isFalse (fun hc => Except.noConfusion hc)

/-- A concrete fitted model used to instantiate closed statements. -/
def M0 : FittedModel := ⟨1, 1, 1, 0⟩

theorem digitVal_digitChar (d : Nat) (h : d < 10) : digitVal (digitChar d) = d := by
  interval_cases d <;> decide

theorem digitChar_isDigit (d : Nat) : (digitChar d).isDigit = true := by
  unfold digitChar
  split <;> decide

theorem natDigitsAux_append (fuel : Nat) : ∀ (n : Nat) (acc : List Char),
    natDigitsAux fuel n acc = natDigitsAux fuel n [] ++ acc := by
  induction fuel with
  | zero => intro n acc; simp [natDigitsAux]
  | succ fuel ih =>
    intro n acc
    by_cases h : n < 10
    · simp [natDigitsAux, h]
    · simp only [natDigitsAux, if_neg h]
      rw [ih (n / 10) (digitChar (n % 10) :: acc), ih (n / 10) [digitChar (n % 10)]]
      simp

theorem natDigitsAux_fuel (n : Nat) : ∀ f₁ f₂ : Nat, n < f₁ → n < f₂ →
    natDigitsAux f₁ n [] = natDigitsAux f₂ n [] := by
  induction n using Nat.strong_induction_on with
  | _ n ih =>
    intro f₁ f₂ h₁ h₂
    obtain ⟨g₁, rfl⟩ : ∃ g, f₁ = g + 1 := ⟨f₁ - 1, by omega⟩
    obtain ⟨g₂, rfl⟩ : ∃ g, f₂ = g + 1 := ⟨f₂ - 1, by omega⟩
    by_cases h : n < 10
    · simp [natDigitsAux, h]
    · simp only [natDigitsAux, if_neg h]
      rw [natDigitsAux_append g₁, natDigitsAux_append g₂]
      have hlt : n / 10 < n := Nat.div_lt_self (by omega) (by omega)
      rw [ih (n / 10) hlt g₁ g₂ (by omega) (by omega)]

theorem natDigits_small (n : Nat) (h : n < 10) : natDigits n = [digitChar n] := by
  simp [natDigits, natDigitsAux, h]

theorem natDigits_step (n : Nat) (h : 10 ≤ n) :
    natDigits n = natDigits (n / 10) ++ [digitChar (n % 10)] := by
  have h' : ¬ n < 10 := by omega
  have hlt : n / 10 < n := Nat.div_lt_self (by omega) (by omega)
  show natDigitsAux (n + 1) n [] = _
  simp only [natDigitsAux, if_neg h']
  rw [natDigitsAux_append n (n / 10) [digitChar (n % 10)],
    natDigitsAux_fuel (n / 10) n (n / 10 + 1) (by omega) (by omega)]
  rfl

theorem natDigits_all_digit (n : Nat) : ∀ c ∈ natDigits n, c.isDigit = true := by
  induction n using Nat.strong_induction_on with
  | _ n ih =>
    by_cases h : n < 10
    · rw [natDigits_small n h]
      intro c hc
      rw [List.mem_singleton] at hc
      subst hc
      exact digitChar_isDigit n
    · rw [natDigits_step n (by omega)]
      intro c hc
      rcases List.mem_append.mp hc with h1 | h2
      · exact ih (n / 10) (Nat.div_lt_self (by omega) (by omega)) c h1
      · rw [List.mem_singleton] at h2
        subst h2
        exact digitChar_isDigit (n % 10)

theorem parseDigits_natDigits_general (n : Nat) : ∀ a : Nat,
    (natDigits n).foldl parseStep a = a * 10 ^ (natDigits n).length + n := by
  induction n using Nat.strong_induction_on with
  | _ n ih =>
    intro a
    by_cases h : n < 10
    · rw [natDigits_small n h]
      simp only [List.foldl, List.length_singleton, pow_one, parseStep,
        digitVal_digitChar n h]
      omega
    · rw [natDigits_step n (by omega), List.foldl_append, List.length_append]
      have hlt : n / 10 < n := Nat.div_lt_self (by omega) (by omega)
      rw [ih (n / 10) hlt a]
      simp only [List.foldl, List.length_singleton, parseStep,
        digitVal_digitChar (n % 10) (Nat.mod_lt n (by omega))]
      have hpow : 10 * (a * 10 ^ (natDigits (n / 10)).length) =
          a * 10 ^ ((natDigits (n / 10)).length + 1) := by ring
      have hdm : 10 * (n / 10) + n % 10 = n := Nat.div_add_mod n 10
      omega

theorem parseDigits_natDigits (n : Nat) : parseDigits (natDigits n) = n := by
  unfold parseDigits
  rw [parseDigits_natDigits_general n 0]
  simp

theorem peelPartsAux_flatten (fuel : Nat) : ∀ rest : List Char, rest.length ≤ fuel →
    (peelPartsAux fuel rest).flatten = rest := by
  induction fuel with
  | zero =>
    intro rest h
    have : rest = [] := List.length_eq_zero.mp (by omega)
    subst this
    simp [peelPartsAux]
  | succ fuel ih =>
    intro rest h
    by_cases h2 : rest.length > 2
    · simp only [peelPartsAux, if_pos h2]
      rw [List.flatten_append,
        ih (rest.take (rest.length - 2)) (by simp [List.length_take]; omega)]
      simp [List.take_append_drop]
    · simp only [peelPartsAux, if_neg h2]
      by_cases h3 : rest.isEmpty
      · rw [List.isEmpty_iff] at h3
        subst h3
        simp
      · simp [h3]

theorem joinComma_filter : ∀ parts : List (List Char),
    (joinComma parts).filter Char.isDigit = parts.flatten.filter Char.isDigit
  | [] => rfl
  | [p] => by simp [joinComma]
  | p :: q :: ps => by
    have ih := joinComma_filter (q :: ps)
    simp only [joinComma, List.flatten_cons, List.filter_append]
    rw [List.filter_cons_of_neg (by decide)]
    rw [ih, List.flatten_cons, List.filter_append]

theorem groupNum_filter (s : List Char) (h : ∀ c ∈ s, c.isDigit = true) :
    (groupNum s).filter Char.isDigit = s := by
  unfold groupNum
  by_cases h3 : s.length ≤ 3
  · simp only [if_pos h3]
    exact List.filter_eq_self.mpr h
  · simp only [if_neg h3]
    rw [List.filter_append, joinComma_filter]
    unfold peelParts
    rw [peelPartsAux_flatten _ _ (le_refl _)]
    rw [List.filter_cons_of_neg (by decide)]
    rw [← List.filter_append, List.take_append_drop]
    exact List.filter_eq_self.mpr h

theorem natDigits_four (n : Nat) (h1 : 1000 ≤ n) (h2 : n ≤ 9999) :
    natDigits n = [digitChar (n / 1000), digitChar (n / 100 % 10),
      digitChar (n / 10 % 10), digitChar (n % 10)] := by
  have e2 : n / 10 / 10 = n / 100 := by
    rw [Nat.div_div_eq_div_mul]
  have e3 : n / 100 / 10 = n / 1000 := by
    rw [Nat.div_div_eq_div_mul]
  rw [natDigits_step n (by omega), natDigits_step (n / 10) (by omega), e2,
    natDigits_step (n / 100) (by omega), e3, natDigits_small (n / 1000) (by omega)]
  simp

theorem natDigits_five (n : Nat) (h1 : 10000 ≤ n) (h2 : n ≤ 99999) :
    natDigits n = [digitChar (n / 10000), digitChar (n / 1000 % 10),
      digitChar (n / 100 % 10), digitChar (n / 10 % 10), digitChar (n % 10)] := by
  have e2 : n / 10 / 10 = n / 100 := by
    rw [Nat.div_div_eq_div_mul]
  have e3 : n / 100 / 10 = n / 1000 := by
    rw [Nat.div_div_eq_div_mul]
  have e4 : n / 1000 / 10 = n / 10000 := by
    rw [Nat.div_div_eq_div_mul]
  rw [natDigits_step n (by omega), natDigits_step (n / 10) (by omega), e2,
    natDigits_step (n / 100) (by omega), e3, natDigits_step (n / 1000) (by omega), e4,
    natDigits_small (n / 10000) (by omega)]
  simp

theorem dispatch_forecast (M : FittedModel) (q : List Char) (num : Option Nat)
    (hf : containsSub q (strChars "forecast") = true) :
    dispatch M q num =
      Response.forecastResp ((orDefault num 200000 : Nat) : ℚ)
        (forecast_tool M ((orDefault num 200000 : Nat) : ℚ) 200000 100000) := by
  simp [dispatch, hf]

theorem dispatch_roi (M : FittedModel) (q : List Char) (num : Option Nat)
    (hf : containsSub q (strChars "forecast") = false)
    (hr : containsSub q (strChars "roi") = true) :
    dispatch M q num =
      Response.roiResp ((orDefault num 200000 : Nat) : ℚ)
        (forecast_tool M ((orDefault num 200000 : Nat) : ℚ) 200000 100000)
        (roi_tool (forecast_tool M ((orDefault num 200000 : Nat) : ℚ) 200000 100000)
          ((orDefault num 200000 : Nat) : ℚ)) := by
  simp [dispatch, hf, hr]

theorem dispatch_profit (M : FittedModel) (q : List Char) (num : Option Nat)
    (hf : containsSub q (strChars "forecast") = false)
    (hr : containsSub q (strChars "roi") = false)
    (hp : containsSub q (strChars "profit") = true) :
    dispatch M q num =
      Response.profitResp
        (profit_tool (forecast_tool M 200000 200000 100000) 200000 100000) := by
  simp [dispatch, hf, hr, hp]

theorem dispatch_scenario (M : FittedModel) (q : List Char) (num : Option Nat)
    (hf : containsSub q (strChars "forecast") = false)
    (hr : containsSub q (strChars "roi") = false)
    (hp : containsSub q (strChars "profit") = false)
    (hs : (containsSub q (strChars "increase") ||
      containsSub q (strChars "what if")) = true) :
    dispatch M q num =
      Response.scenarioResp ((orDefault num 50000 : Nat) : ℚ)
        (scenario_tool M 200000 ((orDefault num 50000 : Nat) : ℚ)).1
        (scenario_tool M 200000 ((orDefault num 50000 : Nat) : ℚ)).2 := by
  simp [dispatch, hf, hr, hp, hs]

theorem dispatch_help (M : FittedModel) (q : List Char) (num : Option Nat)
    (hf : containsSub q (strChars "forecast") = false)
    (hr : containsSub q (strChars "roi") = false)
    (hp : containsSub q (strChars "profit") = false)
    (hs : (containsSub q (strChars "increase") ||
      containsSub q (strChars "what if")) = false) :
    dispatch M q num = Response.helpResp helpMsg := by
  simp [dispatch, hf, hr, hp, hs]

theorem resolve_intent_ok (M : FittedModel) (text : List Char) (num : Option Nat)
    (hok : extract_number (pyLower text) = Except.ok num) :
    resolve_intent M text = Except.ok (dispatch M (pyLower text) num) := by
  simp [resolve_intent, hok]

theorem resolve_intent_error (M : FittedModel) (text : List Char) (e : PyError)
    (he : extract_number (pyLower text) = Except.error e) :
    resolve_intent M text = Except.error e := by
  simp [resolve_intent, he]

/-- C1 (code bug): the ratio metrics do not surface an explicit error
on a zero divisor.  The revenue operand is the `numpy.float64` from
`model.predict`, so `roi_tool(revenue, 0)` and `margin_tool(profit, 0)`
evaluate to inf, -inf or nan — numpy only emits a RuntimeWarning — and
that value is returned to the caller, exactly what the specification
forbids. -/
theorem roi_margin_zero_divisor_silent :
    roi_tool 500000 0 = NumVal.inf ∧
    roi_tool 0 0 = NumVal.nan ∧
    margin_tool 200000 0 = NumVal.inf ∧
    margin_tool (-100000) 0 = NumVal.ninf ∧
    margin_tool 0 0 = NumVal.nan := by
  refine ⟨?_, ?_, ?_, ?_, ?_⟩ <;> norm_num [roi_tool, margin_tool, npdiv]

/-- C2 counterexample: the query "forecast 0" has the embedded integer
0, yet the dispatcher computes with the default marketing 200000; and
the query "roi ²" holds a digit-classified token, so the handler raises
`ValueError` instead of using either an extracted number or the
default. -/
theorem marketing_extraction_counterexample :
    extract_number (pyLower (strChars "forecast 0")) = Except.ok (some 0) ∧
    marketingUsedE (resolve_intent M0 (strChars "forecast 0")) = some ((200000 : Nat) : ℚ) ∧
    ((200000 : Nat) : ℚ) ≠ ((0 : Nat) : ℚ) ∧
    raisedE (resolve_intent M0 (strChars "roi ²")) = some PyError.valueError := by
  refine ⟨by decide, by decide, by decide, by decide⟩

/-- C2 amended: when number extraction raises, the whole handler raises
instead of computing; on the forecast (or, failing that, the roi)
branch with a successful extraction, the extracted number n is used as
the marketing spend when n is nonzero (decimal digits of any script
count), and the default 200000 is used when no number is found or the
extracted number is 0. -/
theorem marketing_extraction_rule (M : FittedModel) (text : List Char) :
    (∀ e, extract_number (pyLower text) = Except.error e →
      resolve_intent M text = Except.error e) ∧
    ((containsSub (pyLower text) (strChars "forecast") = true ∨
      (containsSub (pyLower text) (strChars "forecast") = false ∧
       containsSub (pyLower text) (strChars "roi") = true)) →
      (∀ n : Nat, extract_number (pyLower text) = Except.ok (some n) → n ≠ 0 →
        marketingUsedE (resolve_intent M text) = some ((n : Nat) : ℚ)) ∧
      (extract_number (pyLower text) = Except.ok none →
        marketingUsedE (resolve_intent M text) = some ((200000 : Nat) : ℚ)) ∧
      (extract_number (pyLower text) = Except.ok (some 0) →
        marketingUsedE (resolve_intent M text) = some ((200000 : Nat) : ℚ))) := by
  constructor
  · intro e he
    exact resolve_intent_error M text e he
  · intro hbr
    have key : ∀ num : Option Nat, extract_number (pyLower text) = Except.ok num →
        marketingUsedE (resolve_intent M text) =
          some ((orDefault num 200000 : Nat) : ℚ) := by
      intro num hn
      rw [resolve_intent_ok M text num hn]
      show marketingUsed (dispatch M (pyLower text) num) = _
      rcases hbr with hf | ⟨hf, hr⟩
      · rw [dispatch_forecast M (pyLower text) num hf]
        rfl
      · rw [dispatch_roi M (pyLower text) num hf hr]
        rfl
    refine ⟨?_, ?_, ?_⟩
    · intro n hn hnz
      rw [key (some n) hn]
      simp only [orDefault, if_neg hnz]
    · intro hn
      rw [key none hn]
      rfl
    · intro hn
      rw [key (some 0) hn]
      rfl

/-- Witness for C2 (amended) at concrete queries, one with an ASCII
numeral and one with an Arabic-Indic numeral. -/
theorem marketing_extraction_rule_witness :
    marketingUsedE (resolve_intent M0 (strChars "roi for 300000")) =
      some ((300000 : Nat) : ℚ) ∧
    marketingUsedE (resolve_intent M0 (strChars "roi ٢٥٠")) =
      some ((250 : Nat) : ℚ) :=
  ⟨((marketing_extraction_rule M0 (strChars "roi for 300000")).2
      (Or.inr ⟨by decide, by decide⟩)).1 300000 (by decide) (by decide),
   ((marketing_extraction_rule M0 (strChars "roi ٢٥٠")).2
      (Or.inr ⟨by decide, by decide⟩)).1 250 (by decide) (by decide)⟩

/-- C3 counterexample: the grouped numeral of 1000 is "1,000", whose
leading group has one digit, so it is not a 2-digit leading group
joined to a 3-digit trailing group. -/
theorem format_grouping_1000_counterexample :
    numPart 1000 = strChars "1,000" ∧
    ¬ ∃ g1 g2 : List Char,
        numPart 1000 = g1 ++ ',' :: g2 ∧ g1.length = 2 ∧ g2.length = 3 := by
  constructor
  · decide
  · rintro ⟨g1, g2, he, h1, h2⟩
    have hl : (numPart 1000).length = 5 := by decide
    rw [he] at hl
    simp [List.length_append, h1, h2] at hl

/-- C3 amended: the grouping boundaries of `format_currency`: 0 and 999
stay ungrouped; 1000 is a 1-digit leading group joined to the 3-digit
trailing group; 100000 is two leading groups joined to the trailing
group. -/
theorem format_grouping_boundaries :
    numPart 0 = ['0'] ∧
    numPart 999 = ['9', '9', '9'] ∧
    numPart 1000 = ['1'] ++ ',' :: ['0', '0', '0'] ∧
    numPart 100000 = ['1'] ++ ',' :: (['0', '0'] ++ ',' :: ['0', '0', '0']) := by
  refine ⟨by decide, by decide, by decide, by decide⟩

/-- C4 (code bug): the intent extractor is not total.  A query such as
"forecast ²" contains a whitespace-delimited token that `str.isdigit`
accepts (the superscript two is digit-classified) but `int` rejects, so
`extract_number` raises `ValueError` and the handler aborts before any
fallback to a default can happen. -/
theorem resolve_intent_raises_valueerror :
    pyIsDigit '²' = true ∧
    extract_number (pyLower (strChars "forecast ²")) = Except.error PyError.valueError ∧
    raisedE (resolve_intent M0 (strChars "forecast ²")) = some PyError.valueError := by
  refine ⟨by decide, by decide, by decide⟩

/-- C5 counterexample: the query "forecast ² roi" contains "forecast",
yet it does not resolve to the Forecast intent: number extraction
raises `ValueError` before the dispatch chain runs. -/
theorem dispatch_priority_counterexample :
    containsSub (pyLower (strChars "forecast ² roi")) (strChars "forecast") = true ∧
    raisedE (resolve_intent M0 (strChars "forecast ² roi")) = some PyError.valueError := by
  refine ⟨by decide, by decide⟩

/-- C5 amended: for every query whose number extraction does not raise,
the handler succeeds and dispatch is first-match-wins in the fixed
priority order on the lowercased text: forecast, then roi, then profit,
then increase/"what if"; a query matching none of these yields the
fixed help message; the profit branch's amount never depends on an
extracted number. -/
theorem dispatch_priority (M : FittedModel) (text : List Char) (num : Option Nat)
    (hok : extract_number (pyLower text) = Except.ok num) :
    resolve_intent M text = Except.ok (dispatch M (pyLower text) num) ∧
    (containsSub (pyLower text) (strChars "forecast") = true →
      intentOf (dispatch M (pyLower text) num) = Intent.forecastI) ∧
    (containsSub (pyLower text) (strChars "forecast") = false →
     containsSub (pyLower text) (strChars "roi") = true →
      intentOf (dispatch M (pyLower text) num) = Intent.roiI) ∧
    (containsSub (pyLower text) (strChars "forecast") = false →
     containsSub (pyLower text) (strChars "roi") = false →
     containsSub (pyLower text) (strChars "profit") = true →
      dispatch M (pyLower text) num =
        Response.profitResp
          (profit_tool (forecast_tool M 200000 200000 100000) 200000 100000)) ∧
    (containsSub (pyLower text) (strChars "forecast") = false →
     containsSub (pyLower text) (strChars "roi") = false →
     containsSub (pyLower text) (strChars "profit") = false →
     (containsSub (pyLower text) (strChars "increase") = true ∨
      containsSub (pyLower text) (strChars "what if") = true) →
      intentOf (dispatch M (pyLower text) num) = Intent.scenarioI) ∧
    (containsSub (pyLower text) (strChars "forecast") = false →
     containsSub (pyLower text) (strChars "roi") = false →
     containsSub (pyLower text) (strChars "profit") = false →
     containsSub (pyLower text) (strChars "increase") = false →
     containsSub (pyLower text) (strChars "what if") = false →
      dispatch M (pyLower text) num = Response.helpResp helpMsg) := by
  refine ⟨resolve_intent_ok M text num hok, ?_, ?_, ?_, ?_, ?_⟩
  · intro hf
    rw [dispatch_forecast M (pyLower text) num hf]
    rfl
  · intro hf hr
    rw [dispatch_roi M (pyLower text) num hf hr]
    rfl
  · intro hf hr hp
    exact dispatch_profit M (pyLower text) num hf hr hp
  · intro hf hr hp hs
    have hs2 : (containsSub (pyLower text) (strChars "increase") ||
        containsSub (pyLower text) (strChars "what if")) = true := by
      rcases hs with h | h <;> simp [h]
    rw [dispatch_scenario M (pyLower text) num hf hr hp hs2]
    rfl
  · intro hf hr hp hi hw
    exact dispatch_help M (pyLower text) num hf hr hp (by rw [hi, hw]; rfl)

/-- Witness for C5: "forecast" wins over every later keyword, an
unmatched query gets the help message, and a Turkish dotted capital I
lowers into the roi keyword. -/
theorem dispatch_priority_witness :
    intentOf (dispatch M0 (pyLower (strChars "forecast roi profit what if increase")) none) =
      Intent.forecastI ∧
    dispatch M0 (pyLower (strChars "hello")) none = Response.helpResp helpMsg ∧
    intentOf (dispatch M0 (pyLower (strChars "ROİ")) none) = Intent.roiI :=
  ⟨(dispatch_priority M0 (strChars "forecast roi profit what if increase") none
      (by decide)).2.1 (by decide),
   (dispatch_priority M0 (strChars "hello") none (by decide)).2.2.2.2.2
     (by decide) (by decide) (by decide) (by decide) (by decide),
   (dispatch_priority M0 (strChars "ROİ") none (by decide)).2.2.1
     (by decide) (by decide)⟩

/-- C6: a scenario's base revenue is the model's prediction at the base
marketing spend and its new revenue the prediction at the perturbed
spend, both against the same fixed store/online costs; the uplift is
always their difference, and a zero delta gives zero uplift, with no
special-casing of the sign of the delta. -/
theorem scenario_uplift_correct (M : FittedModel) (m d : ℚ) :
    (scenario_tool M m d).1 = forecast_tool M m 200000 100000 ∧
    (scenario_tool M m d).2 = forecast_tool M (m + d) 200000 100000 ∧
    uplift M m d = (scenario_tool M m d).2 - (scenario_tool M m d).1 ∧
    uplift M m 0 = 0 := by
  refine ⟨rfl, rfl, rfl, ?_⟩
  simp [uplift, scenario_tool]

/-- C7: `profit_tool` is exactly revenue minus store cost minus online
cost, for all inputs. -/
theorem profit_formula (revenue store online : ℚ) :
    profit_tool revenue store online = revenue - store - online := rfl

/-- C8: stripping every non-digit character from the formatted currency
string of a non-negative integer and reading the remaining digits as a
decimal numeral gives the integer back. -/
theorem format_currency_round_trip (v : Nat) :
    parseDigits ((strChars (format_currency (v : Int))).filter Char.isDigit) = v := by
  have hneg : ¬ ((v : Int) < 0) := by omega
  have hdata : strChars (format_currency (v : Int)) = '₹' :: ' ' :: numPart (v : Int) := rfl
  rw [hdata, List.filter_cons_of_neg (by decide), List.filter_cons_of_neg (by decide)]
  have hnum : numPart (v : Int) = groupNum (natDigits v) := by
    unfold numPart pyStr
    rw [if_neg hneg]
    norm_num
  rw [hnum, groupNum_filter _ (natDigits_all_digit v), parseDigits_natDigits]

/-- C9: when the amount handed to the formatter cannot be coerced to an
integer, `format_currency` does not fail: it returns the zero-amount
display string, which is the same string the formatter produces for 0. -/
theorem format_currency_coercion_fallback (v : PyValue) (h : pyIntCoerce v = none) :
    format_currency_val v = "₹ 0" ∧ format_currency_val v = format_currency 0 := by
  constructor
  · unfold format_currency_val
    rw [h]
  · unfold format_currency_val
    rw [h]
    decide

/-- Witness for C9 on a concrete non-numeric amount. -/
theorem format_currency_coercion_fallback_witness :
    pyIntCoerce (PyValue.strV (strChars "n/a")) = none ∧
    format_currency_val (PyValue.strV (strChars "n/a")) = "₹ 0" :=
  ⟨by decide, (format_currency_coercion_fallback (PyValue.strV (strChars "n/a")) (by decide)).1⟩

/-- C10 counterexample: -123456 has a six-digit magnitude, yet its
formatted string is "₹ -1,23,456": the sign stays attached to the
leading group instead of becoming a separate leading group. -/
theorem format_negative_sign_counterexample :
    format_currency (-123456) = "₹ -1,23,456" ∧
    ((numPart (-123456)).take 2 = ['-', ','] → False) := by
  constructor
  · decide
  · decide

/-- C10 amended: a negative integer keeps its minus sign inside the
grouped string: with a 4-digit magnitude the sign is attached to the
leading group (format_currency (-1234) = "₹ -1,234"), and with exactly
a 5-digit magnitude the sign is a separate leading group followed by a
separator (format_currency (-12345) = "₹ -,12,345"). -/
theorem format_negative_sign (v : Int) :
    (-9999 ≤ v → v ≤ -1000 →
      ∃ d t, numPart v = '-' :: d :: ',' :: t ∧ d.isDigit = true ∧ t.length = 3) ∧
    (-99999 ≤ v → v ≤ -10000 →
      ∃ t, numPart v = '-' :: ',' :: t ∧ t.length = 6) ∧
    format_currency (-1234) = "₹ -1,234" ∧
    format_currency (-12345) = "₹ -,12,345" := by
  refine ⟨?_, ?_, by decide, by decide⟩
  · intro h1 h2
    have hneg : v < 0 := by omega
    have ha1 : 1000 ≤ v.natAbs := by omega
    have ha2 : v.natAbs ≤ 9999 := by omega
    refine ⟨digitChar (v.natAbs / 1000),
      [digitChar (v.natAbs / 100 % 10), digitChar (v.natAbs / 10 % 10),
        digitChar (v.natAbs % 10)], ?_, digitChar_isDigit _, rfl⟩
    unfold numPart pyStr
    rw [if_pos hneg, natDigits_four v.natAbs ha1 ha2]
    rfl
  · intro h1 h2
    have hneg : v < 0 := by omega
    have ha1 : 10000 ≤ v.natAbs := by omega
    have ha2 : v.natAbs ≤ 99999 := by omega
    refine ⟨[digitChar (v.natAbs / 10000), digitChar (v.natAbs / 1000 % 10), ',',
      digitChar (v.natAbs / 100 % 10), digitChar (v.natAbs / 10 % 10),
      digitChar (v.natAbs % 10)], ?_, rfl⟩
    unfold numPart pyStr
    rw [if_pos hneg, natDigits_five v.natAbs ha1 ha2]
    rfl

/-- Witness for C10 (amended) at the two boundary magnitudes. -/
theorem format_negative_sign_witness :
    (∃ d t, numPart (-1234) = '-' :: d :: ',' :: t ∧ d.isDigit = true ∧ t.length = 3) ∧
    (∃ t, numPart (-12345) = '-' :: ',' :: t ∧ t.length = 6) :=
  ⟨(format_negative_sign (-1234)).1 (by decide) (by decide),
   (format_negative_sign (-12345)).2.1 (by decide) (by decide)⟩
